import Mathlib

/-!
Shallow embedding of the motion-alarm controller from
`Labos-Zadatak2/sketch.ino` (the full controller document of that file:
globals, `wakeUp`, `resetStanje`, `ugasiAlarm`, `enterSleep`, `loop`).

Modelling conventions:
* Machine integers (`unsigned long` millisecond timestamps, `uint32_t` IR
  codes) are `Nat`; the wrapping subtraction `a - b` on `unsigned long`
  is `usub32`.
* Pin levels are `Bool` (`true` = `HIGH`, `false` = `LOW`).
* One call of `loop` consumes one `Inputs` record: the button level and
  the decoded IR code (if any) observed in that iteration, the PIR level
  at the sleep-entry check, `now` for every `millis()` call of the
  iteration, and a list of ticks feeding the simulated sleep wait.
* Side effects on peripherals (pin writes, LCD calls, `delay`, serial
  prints, the blocking PIR-settle poll of `resetStanje`) are recorded as
  an `Action` trace.  The 3-second startup animation runs exactly six
  250 ms on / 250 ms off cycles, which is its deterministic unfolding
  when `delay` is exact.
* The simulated sleep wait of `enterSleep` is driven by a finite list of
  `SleepTick`s; if the list is exhausted before the wait condition turns
  true the iteration is still blocked, which the model reports as `none`.
-/

namespace AlarmCtl

/-- Controller state: the global flags and timestamps of the sketch, the
`static` previous-button-level of `loop`, and the latched levels of the
LED pin, buzzer pin and LCD backlight. -/
structure St where
  wakeUpFlag : Bool
  zahtjevZaGasenjeGumbom : Bool
  zahtjevZaGasenjeIR : Bool
  alarmAktivan : Bool
  stanje : Bool
  sustavPokrenut : Bool
  zahtjevZaGasenjeSustava : Bool
  prethodno : Nat
  zadnjeVrijemeDetekcije : Nat
  zadnjeVrijemeGumba : Nat
  prosloStanjeGumba : Bool
  ledOut : Bool
  buzzerOut : Bool
  backlight : Bool
  deriving DecidableEq, Repr

/-- Peripheral side effects emitted while one loop iteration runs. -/
inductive Action where
  | led (b : Bool)
  | buzzer (b : Bool)
  | lcdClear
  | lcdSetCursor (r c : Nat)
  | lcdPrint (msg : String)
  | lcdBacklight (b : Bool)
  | delayMs (n : Nat)
  | waitPirLow
  | serial (msg : String)
  | serialIRCode (kod : Nat)
  | irResume
  deriving DecidableEq, Repr

/-- One 10 ms tick of input seen by the simulated sleep wait: the PIR
level at the loop-condition check and the IR code decoded in the body,
if any. -/
structure SleepTick where
  pir : Bool
  ir : Option Nat
  deriving DecidableEq, Repr

/-- Inputs consumed by one iteration of `loop`. -/
structure Inputs where
  now : Nat
  buttonLevel : Bool
  ir : Option Nat
  pirLevel : Bool
  sleepTicks : List SleepTick
  deriving DecidableEq, Repr

/-- Wrapping subtraction of 32-bit `unsigned long` values. -/
def usub32 (a b : Nat) : Nat :=
  (a + 4294967296 - b % 4294967296) % 4294967296

/-- IR code of the PLAY key (start the system). -/
def IR_KOD_PALJENJE : Nat := 0x57A8FF00

/-- IR code of the POWER key (shut the whole system down). -/
def IR_KOD_GASENJE : Nat := 0x5DA2FF00

/-- IR code of key 1 (silence an active alarm). -/
def IR_KOD_GASENJE_ALARMA : Nat := 0xCF30FF00

/-- Blink interval of the active alarm, in milliseconds. -/
def interval : Nat := 300

/-- State after `setup()`: all flags clear, backlight on, previous
button level `HIGH`, outputs `LOW`. -/
def bootState : St :=
  { wakeUpFlag := false
    zahtjevZaGasenjeGumbom := false
    zahtjevZaGasenjeIR := false
    alarmAktivan := false
    stanje := false
    sustavPokrenut := false
    zahtjevZaGasenjeSustava := false
    prethodno := 0
    zadnjeVrijemeDetekcije := 0
    zadnjeVrijemeGumba := 0
    prosloStanjeGumba := true
    ledOut := false
    buzzerOut := false
    backlight := true }

/-- Actions of `ugasiAlarm`: outputs LOW, "Alarm ugasen" held 1.5 s. -/
def ugasiAlarmActions : List Action :=
  [Action.serial "<< Alarm iskljucen.", Action.led false, Action.buzzer false,
   Action.lcdClear, Action.lcdSetCursor 0 0, Action.lcdPrint "Alarm ugasen",
   Action.delayMs 1500]

/-- Embedding of `ugasiAlarm`: silences LED and buzzer and shows the
"Alarm ugasen" message for 1.5 s. -/
def ugasiAlarm (s : St) : St × List Action :=
  ({ s with ledOut := false, buzzerOut := false }, ugasiAlarmActions)

/-- Actions of `resetStanje`: "Stanje mirovanja" held 2 s, backlight
off, then the blocking poll until the PIR level returns LOW. -/
def resetStanjeActions : List Action :=
  [Action.lcdClear, Action.lcdSetCursor 0 0, Action.lcdPrint "Stanje mirovanja",
   Action.delayMs 2000, Action.lcdClear, Action.lcdBacklight false,
   Action.waitPirLow]

/-- Embedding of `resetStanje`: clears the alarm flags, shows the idle
message, turns the backlight off and blocks until the PIR settles.  The
blocking poll changes no controller state and is recorded as the
`waitPirLow` action. -/
def resetStanje (s : St) : St × List Action :=
  ({ s with alarmAktivan := false, zahtjevZaGasenjeGumbom := false,
            zahtjevZaGasenjeIR := false, backlight := false },
   resetStanjeActions)

/-- Button reading and falling-edge detection of `loop` (the
`prosloStanjeGumba` / `trenutnoStanjeGumba` block).  Every observed
High→Low transition records the press time; the silence request is
raised only while the alarm is active.  No time window is consulted. -/
def buttonStep (s : St) (level : Bool) (now : Nat) : St × List Action :=
  if s.prosloStanjeGumba && !level then
    if s.alarmAktivan then
      ({ s with zadnjeVrijemeGumba := now, zahtjevZaGasenjeGumbom := true,
                prosloStanjeGumba := level },
       [Action.serial ">> LOOP: Gumb pritisnut (aktivni alarm)."])
    else
      ({ s with zadnjeVrijemeGumba := now, prosloStanjeGumba := level }, [])
  else
    ({ s with prosloStanjeGumba := level }, [])

/-- One on/off cycle of the startup animation. -/
def startupBlinkCycle : List Action :=
  [Action.led true, Action.buzzer true, Action.delayMs 250,
   Action.led false, Action.buzzer false, Action.delayMs 250]

/-- The 3-second startup animation: six 500 ms cycles. -/
def startupBlinkActions : List Action :=
  List.flatten (List.replicate 6 startupBlinkCycle)

/-- Actions of the PLAY branch after the IR code log: startup screen,
animation, "Sustav aktivan", transition message, backlight off. -/
def irPlayActions : List Action :=
  [Action.lcdClear, Action.lcdBacklight true, Action.lcdSetCursor 0 0,
   Action.lcdPrint "Pokretanje sustava"]
  ++ startupBlinkActions
  ++ [Action.lcdClear, Action.lcdSetCursor 0 0, Action.lcdPrint "Sustav aktivan",
      Action.delayMs 4000, Action.lcdClear, Action.lcdSetCursor 0 0,
      Action.lcdPrint "Prelazak u", Action.lcdSetCursor 0 1,
      Action.lcdPrint "  stanje mirovanja", Action.delayMs 2000,
      Action.lcdClear, Action.lcdBacklight false,
      Action.serial ">> Sustav pokrenut (IR PLAY)."]

/-- IR decoding block of `loop`.  PLAY starts the system when it is not
already started (clearing the pending wake flag and running the startup
animation, whose net pin effect is LOW/LOW and backlight off), POWER
raises the shutdown request, key 1 raises the silence request only while
the alarm is active; every decode ends with `IrReceiver.resume()`. -/
def irStep (s : St) (ir : Option Nat) : St × List Action :=
  match ir with
  | none => (s, [])
  | some kod =>
    if kod = IR_KOD_PALJENJE then
      if s.sustavPokrenut then
        (s, [Action.serialIRCode kod, Action.irResume])
      else
        ({ s with sustavPokrenut := true, wakeUpFlag := false,
                  ledOut := false, buzzerOut := false, backlight := false },
         Action.serialIRCode kod :: (irPlayActions ++ [Action.irResume]))
    else if kod = IR_KOD_GASENJE then
      ({ s with zahtjevZaGasenjeSustava := true },
       [Action.serialIRCode kod, Action.irResume])
    else if kod = IR_KOD_GASENJE_ALARMA && s.alarmAktivan then
      ({ s with zahtjevZaGasenjeIR := true },
       [Action.serialIRCode kod,
        Action.serial ">> LOOP: IR kod za gasenje ALARMA (tipka 1).",
        Action.irResume])
    else
      (s, [Action.serialIRCode kod, Action.irResume])

/-- Alarm activation block: a pending wake flag while the alarm is off
consumes the flag, latches the detection time, activates the alarm and
turns the backlight on. -/
def activateStep (s : St) (now : Nat) : St × List Action :=
  if !s.alarmAktivan && s.wakeUpFlag then
    ({ s with wakeUpFlag := false, zadnjeVrijemeDetekcije := now,
              alarmAktivan := true, backlight := true },
     [Action.serial ">> Pokret detektiran. Alarm aktiviran."])
  else (s, [])

/-- Blink block of the active alarm: once `interval` ms have elapsed
since the last toggle, LED and buzzer flip together and the warning is
redrawn. -/
def blinkStep (s : St) (now : Nat) : St × List Action :=
  if interval ≤ usub32 now s.prethodno then
    ({ s with prethodno := now, stanje := !s.stanje,
              ledOut := !s.stanje, buzzerOut := !s.stanje },
     [Action.led (!s.stanje), Action.buzzer (!s.stanje),
      Action.lcdSetCursor 0 0,
      Action.lcdPrint (if !s.stanje then "   UPOZORENJE" else "               "),
      Action.lcdSetCursor 0 1,
      Action.lcdPrint (if !s.stanje then "Pokret detektiran" else "                   ")])
  else (s, [])

/-- Body of the simulated sleep wait of `enterSleep`: each tick first
checks the loop condition (PIR still LOW and no shutdown request), then
delays 10 ms and decodes at most one IR signal, a POWER code raising the
shutdown request.  The third component tells whether the wait exited
(`true`) or ran out of modelled ticks while still blocked (`false`). -/
def enterSleepLoop (s : St) : List SleepTick → St × List Action × Bool
  | [] => (s, [], false)
  | t :: rest =>
    if !t.pir && !s.zahtjevZaGasenjeSustava then
      let body :=
        match t.ir with
        | none => (s, ([] : List Action))
        | some kod =>
          if kod = IR_KOD_GASENJE then
            ({ s with zahtjevZaGasenjeSustava := true },
             [Action.serialIRCode kod,
              Action.serial ">> Sustav iskljucen (IR POWER) tijekom cekanja PIR!",
              Action.irResume])
          else
            (s, [Action.serialIRCode kod, Action.irResume])
      let rec_result := enterSleepLoop body.1 rest
      (rec_result.1, Action.delayMs 10 :: (body.2 ++ rec_result.2.1), rec_result.2.2)
    else (s, [], true)

/-- Embedding of the simulated `enterSleep`: polls until the PIR level
is HIGH or a shutdown request is pending, then sets the wake flag.
Returns `none` when the supplied ticks never satisfy the condition (the
wait is still blocked). -/
def enterSleep (s : St) (ticks : List SleepTick) : Option (St × List Action) :=
  match enterSleepLoop s ticks with
  | (s1, acts, true) =>
    some ({ s1 with wakeUpFlag := true },
          Action.serial "-- Simulacija sleep moda: cekam PIR..." :: acts)
  | (_, _, false) => none

/-- Tail of one loop iteration, after the shutdown check, button block
and IR block: the started-system gate, alarm activation, the active
alarm branch (blink plus deactivation), and the sleep-entry branch. -/
def loopAfterIr (s : St) (now : Nat) (pir : Bool) (ticks : List SleepTick) :
    Option (St × List Action) :=
  if !s.sustavPokrenut then some (s, [])
  else
    let act := activateStep s now
    let s3 := act.1
    if s3.alarmAktivan then
      let bl := blinkStep s3 now
      let s4 := bl.1
      if s4.zahtjevZaGasenjeGumbom || s4.zahtjevZaGasenjeIR then
        let ug := ugasiAlarm s4
        let s6 := { ug.1 with zahtjevZaGasenjeGumbom := false,
                              zahtjevZaGasenjeIR := false }
        let rs := resetStanje s6
        some (rs.1, act.2 ++ bl.2 ++ ug.2 ++ rs.2)
      else
        some (s4, act.2 ++ bl.2)
    else if !s3.alarmAktivan && !pir then
      (enterSleep s3 ticks).map (fun p =>
        (p.1, act.2 ++ [Action.serial "-- Ulazak u sleep mode...", Action.delayMs 200]
              ++ p.2 ++ [Action.serial "-- Probudili smo se!"]))
    else
      some (s3, act.2)

/-- State produced by the shutdown branch at the top of `loop`. -/
def shutdownSt (s : St) : St :=
  { s with sustavPokrenut := false, alarmAktivan := false, wakeUpFlag := false,
           zahtjevZaGasenjeSustava := false, ledOut := false, buzzerOut := false,
           backlight := false }

/-- Actions of the shutdown branch. -/
def shutdownActions : List Action :=
  [Action.serial ">> Sustav iskljucen (IR POWER).", Action.lcdClear,
   Action.lcdSetCursor 0 0, Action.lcdPrint "Sustav ugasen", Action.delayMs 3000,
   Action.lcdClear, Action.lcdBacklight false, Action.led false,
   Action.buzzer false]

/-- One iteration of `loop`: the shutdown request is checked first and,
when the system is started, ends the iteration at once; otherwise the
button block, the IR block and the remaining processing run in order.
`none` marks an iteration that never finishes because the simulated
sleep wait stays blocked on the supplied ticks. -/
def loop (s : St) (i : Inputs) : Option (St × List Action) :=
  if s.zahtjevZaGasenjeSustava && s.sustavPokrenut then
    some (shutdownSt s, shutdownActions)
  else
    let bs := buttonStep s i.buttonLevel i.now
    let is_ := irStep bs.1 i.ir
    (loopAfterIr is_.1 i.now i.pirLevel i.sleepTicks).map (fun p =>
      (p.1, bs.2 ++ is_.2 ++ p.2))

/-- States reachable from the boot state by completed loop iterations. -/
inductive Reachable : St → Prop where
  | boot : Reachable bootState
  | step {s s' : St} {i : Inputs} {tr : List Action} :
      Reachable s → loop s i = some (s', tr) → Reachable s'

/-- Debounced wake ISR of the power-management sketch (`wakeUp` with the
250 ms window): returns whether the press is accepted and the updated
last-interrupt time. -/
def wakeUpDemo (lastInterruptTime now : Nat) : Bool × Nat :=
  if 250 < usub32 now lastInterruptTime then (true, now)
  else (false, lastInterruptTime)

/-- Erase the two button-bookkeeping fields (previous level, last press
time); two states with equal erasure behave identically in everything
downstream of the button block. -/
def coreOf (s : St) : St :=
  { s with prosloStanjeGumba := true, zadnjeVrijemeGumba := 0 }

theorem enterSleepLoop_bf (ticks : List SleepTick) (s : St) (b : Bool) (n : Nat) :
    enterSleepLoop { s with prosloStanjeGumba := b, zadnjeVrijemeGumba := n } ticks
      = ({ (enterSleepLoop s ticks).1 with prosloStanjeGumba := b, zadnjeVrijemeGumba := n },
         (enterSleepLoop s ticks).2) := by
  induction ticks generalizing s with
  | nil => rfl
  | cons t rest ih =>
    simp only [enterSleepLoop]
    by_cases hc : (!t.pir && !s.zahtjevZaGasenjeSustava) = true
    · cases hir : t.ir with
      | none => simp [hc, hir, ih s]
      | some kod =>
        by_cases hk : kod = IR_KOD_GASENJE
        · simp [hc, hir, hk, ih { s with zahtjevZaGasenjeSustava := true }]
        · simp [hc, hir, hk, ih s]
    · simp [hc]

theorem ugasiAlarm_bf (s : St) (b : Bool) (n : Nat) :
    ugasiAlarm { s with prosloStanjeGumba := b, zadnjeVrijemeGumba := n }
      = ({ (ugasiAlarm s).1 with prosloStanjeGumba := b, zadnjeVrijemeGumba := n }, (ugasiAlarm s).2) := rfl

theorem resetStanje_bf (s : St) (b : Bool) (n : Nat) :
    resetStanje { s with prosloStanjeGumba := b, zadnjeVrijemeGumba := n }
      = ({ (resetStanje s).1 with prosloStanjeGumba := b, zadnjeVrijemeGumba := n }, (resetStanje s).2) := rfl

theorem activateStep_bf (s : St) (b : Bool) (n now : Nat) :
    activateStep { s with prosloStanjeGumba := b, zadnjeVrijemeGumba := n } now
      = ({ (activateStep s now).1 with prosloStanjeGumba := b, zadnjeVrijemeGumba := n }, (activateStep s now).2) := by
  unfold activateStep
  by_cases h : (!s.alarmAktivan && s.wakeUpFlag) = true <;> simp [h]

theorem blinkStep_bf (s : St) (b : Bool) (n now : Nat) :
    blinkStep { s with prosloStanjeGumba := b, zadnjeVrijemeGumba := n } now
      = ({ (blinkStep s now).1 with prosloStanjeGumba := b, zadnjeVrijemeGumba := n }, (blinkStep s now).2) := by
  unfold blinkStep
  by_cases h : interval ≤ usub32 now s.prethodno <;> simp [h]

theorem enterSleep_bf (s : St) (b : Bool) (n : Nat) (ticks : List SleepTick) :
    enterSleep { s with prosloStanjeGumba := b, zadnjeVrijemeGumba := n } ticks
      = (enterSleep s ticks).map (fun p => ({ p.1 with prosloStanjeGumba := b, zadnjeVrijemeGumba := n }, p.2)) := by
  unfold enterSleep
  rw [enterSleepLoop_bf]
  rcases h : enterSleepLoop s ticks with ⟨s1, acts, done⟩
  cases done <;> simp

set_option maxRecDepth 16384 in
theorem loopAfterIr_bf (s : St) (b : Bool) (n now : Nat) (pir : Bool) (ticks : List SleepTick) :
    loopAfterIr { s with prosloStanjeGumba := b, zadnjeVrijemeGumba := n } now pir ticks
      = (loopAfterIr s now pir ticks).map (fun p => ({ p.1 with prosloStanjeGumba := b, zadnjeVrijemeGumba := n }, p.2)) := by
  unfold loopAfterIr
  simp only [activateStep_bf s b n now,
    blinkStep_bf (activateStep s now).1 b n now,
    ugasiAlarm_bf (blinkStep (activateStep s now).1 now).1 b n,
    resetStanje_bf ({ (ugasiAlarm (blinkStep (activateStep s now).1 now).1).1 with zahtjevZaGasenjeGumbom := false, zahtjevZaGasenjeIR := false }) b n,
    enterSleep_bf (activateStep s now).1 b n ticks]
  split_ifs <;>
    first
      | (simp; done)
      | (rcases h : enterSleep (activateStep s now).1 ticks with _ | ⟨s1, acts⟩ <;> simp [h])

/-- Mid-iteration invariant: a pending silence request (button or IR)
implies the alarm is active, the outputs are LOW whenever the alarm is
off, and an active alarm implies the system is started. -/
def MidInv (s : St) : Prop :=
  (s.zahtjevZaGasenjeGumbom = true → s.alarmAktivan = true) ∧
  (s.zahtjevZaGasenjeIR = true → s.alarmAktivan = true) ∧
  (s.alarmAktivan = false → s.ledOut = false ∧ s.buzzerOut = false) ∧
  (s.alarmAktivan = true → s.sustavPokrenut = true)

/-- Invariant at loop-iteration boundaries: both silence-request flags
are clear, the outputs are LOW whenever the alarm is off, and an active
alarm implies the system is started. -/
def Inv (s : St) : Prop :=
  s.zahtjevZaGasenjeGumbom = false ∧ s.zahtjevZaGasenjeIR = false ∧
  (s.alarmAktivan = false → s.ledOut = false ∧ s.buzzerOut = false) ∧
  (s.alarmAktivan = true → s.sustavPokrenut = true)

theorem inv_mid {s : St} (h : Inv s) : MidInv s := by
  unfold Inv MidInv at *
  rcases h with ⟨h1, h2, h3, h4⟩
  exact ⟨by simp [h1], by simp [h2], h3, h4⟩

theorem inv_boot : Inv bootState := by
  unfold Inv bootState
  simp

theorem buttonStep_mid {s : St} (l : Bool) (n : Nat) (h : MidInv s) :
    MidInv (buttonStep s l n).1 := by
  unfold MidInv buttonStep at *
  split_ifs <;> simp_all

theorem irStep_mid {s : St} (ir : Option Nat) (h : MidInv s) :
    MidInv (irStep s ir).1 := by
  obtain ⟨m1, m2, m3, m4⟩ := h
  cases ir with
  | none => exact ⟨m1, m2, m3, m4⟩
  | some kod =>
    by_cases h1 : kod = IR_KOD_PALJENJE
    · by_cases h2 : s.sustavPokrenut = true
      · have e : (irStep s (some kod)).1 = s := by simp [irStep, h1, h2]
        rw [e]
        exact ⟨m1, m2, m3, m4⟩
      · have e : (irStep s (some kod)).1
            = { s with sustavPokrenut := true, wakeUpFlag := false, ledOut := false, buzzerOut := false, backlight := false } := by
          simp [irStep, h1, h2]
        rw [e]
        exact ⟨fun hg => m1 hg, fun hg => m2 hg, fun _ => ⟨rfl, rfl⟩, fun _ => rfl⟩
    · by_cases h3 : kod = IR_KOD_GASENJE
      · have e : (irStep s (some kod)).1 = { s with zahtjevZaGasenjeSustava := true } := by
          simp [irStep, h3, IR_KOD_PALJENJE, IR_KOD_GASENJE]
        rw [e]
        exact ⟨fun hg => m1 hg, fun hg => m2 hg, fun hg => m3 hg, fun hg => m4 hg⟩
      · by_cases h4 : (decide (kod = IR_KOD_GASENJE_ALARMA) && s.alarmAktivan) = true
        · have h4' : kod = IR_KOD_GASENJE_ALARMA ∧ s.alarmAktivan = true := by
            simpa using h4
          have e : (irStep s (some kod)).1 = { s with zahtjevZaGasenjeIR := true } := by
            simp only [irStep]
            rw [if_neg h1, if_neg h3, if_pos h4]
          rw [e]
          refine ⟨fun _ => h4'.2, fun _ => h4'.2, fun hcon => absurd hcon (by simp [h4'.2]), fun _ => m4 h4'.2⟩
        · have e : (irStep s (some kod)).1 = s := by
            simp only [irStep]
            rw [if_neg h1, if_neg h3, if_neg h4]
          rw [e]
          exact ⟨m1, m2, m3, m4⟩

theorem activateStep_mid {s : St} (now : Nat) (h : MidInv s)
    (hp : s.sustavPokrenut = true) : MidInv (activateStep s now).1 := by
  unfold MidInv activateStep at *
  split_ifs <;> simp_all

theorem enterSleepLoop_only_zahtjev (ticks : List SleepTick) (s : St) :
    ∃ z acts done, enterSleepLoop s ticks = ({ s with zahtjevZaGasenjeSustava := z }, acts, done) := by
  induction ticks generalizing s with
  | nil => exact ⟨s.zahtjevZaGasenjeSustava, [], false, rfl⟩
  | cons t rest ih =>
    by_cases hc : (!t.pir && !s.zahtjevZaGasenjeSustava) = true
    · cases hir : t.ir with
      | none =>
        obtain ⟨z, acts, done, hrec⟩ := ih s
        refine ⟨z, Action.delayMs 10 :: ([] ++ acts), done, ?_⟩
        simp [enterSleepLoop, hc, hir, hrec]
      | some kod =>
        by_cases hk : kod = IR_KOD_GASENJE
        · obtain ⟨z, acts, done, hrec⟩ := ih { s with zahtjevZaGasenjeSustava := true }
          refine ⟨z, Action.delayMs 10 ::
            ([Action.serialIRCode kod,
              Action.serial ">> Sustav iskljucen (IR POWER) tijekom cekanja PIR!",
              Action.irResume] ++ acts), done, ?_⟩
          simp [enterSleepLoop, hc, hir, hk, hrec]
        · obtain ⟨z, acts, done, hrec⟩ := ih s
          refine ⟨z, Action.delayMs 10 ::
            ([Action.serialIRCode kod, Action.irResume] ++ acts), done, ?_⟩
          simp [enterSleepLoop, hc, hir, hk, hrec]
    · exact ⟨s.zahtjevZaGasenjeSustava, [], true, by simp [enterSleepLoop, hc]⟩

theorem enterSleep_shape {s s1 : St} {ticks : List SleepTick} {tr : List Action}
    (h : enterSleep s ticks = some (s1, tr)) :
    ∃ z, s1 = { s with zahtjevZaGasenjeSustava := z, wakeUpFlag := true } := by
  unfold enterSleep at h
  obtain ⟨z, acts, done, hrec⟩ := enterSleepLoop_only_zahtjev ticks s
  rw [hrec] at h
  cases done with
  | false => simp at h
  | true =>
    simp only [Option.some.injEq, Prod.mk.injEq] at h
    exact ⟨z, h.1.symm⟩

theorem loopAfterIr_inv {s s' : St} {now : Nat} {pir : Bool}
    {ticks : List SleepTick} {tr : List Action}
    (h : MidInv s) (hres : loopAfterIr s now pir ticks = some (s', tr)) : Inv s' := by
  unfold loopAfterIr at hres
  by_cases hp : s.sustavPokrenut = true
  case neg =>
    have hp' : s.sustavPokrenut = false := by revert hp; cases s.sustavPokrenut <;> simp
    rw [if_pos (show (!s.sustavPokrenut) = true by simp [hp'])] at hres
    simp only [Option.some.injEq, Prod.mk.injEq] at hres
    obtain ⟨h1, _⟩ := hres
    subst h1
    obtain ⟨m1, m2, m3, m4⟩ := h
    have halarm : s.alarmAktivan = false := by
      cases hA : s.alarmAktivan
      · rfl
      · exact absurd (m4 hA) (by simp [hp'])
    refine ⟨?_, ?_, fun _ => m3 halarm, fun hcon => absurd hcon (by simp [halarm])⟩
    · cases hG : s.zahtjevZaGasenjeGumbom
      · rfl
      · exact absurd (m1 hG) (by simp [halarm])
    · cases hG : s.zahtjevZaGasenjeIR
      · rfl
      · exact absurd (m2 hG) (by simp [halarm])
  case pos =>
    have hmid3 : MidInv (activateStep s now).1 := activateStep_mid now h hp
    have hpok3 : ((activateStep s now).1).sustavPokrenut = true := by
      unfold activateStep
      split_ifs <;> simpa using hp
    rw [if_neg (show ¬((!s.sustavPokrenut) = true) by simp [hp])] at hres
    by_cases ha : ((activateStep s now).1).alarmAktivan = true
    · rw [if_pos ha] at hres
      by_cases hz : (((blinkStep (activateStep s now).1 now).1).zahtjevZaGasenjeGumbom
            || ((blinkStep (activateStep s now).1 now).1).zahtjevZaGasenjeIR) = true
      · rw [if_pos hz] at hres
        simp only [Option.some.injEq, Prod.mk.injEq] at hres
        obtain ⟨h1, _⟩ := hres
        subst h1
        unfold Inv resetStanje ugasiAlarm
        simp
      · rw [if_neg hz] at hres
        simp only [Option.some.injEq, Prod.mk.injEq] at hres
        obtain ⟨h1, _⟩ := hres
        subst h1
        have hzz : ((blinkStep (activateStep s now).1 now).1).zahtjevZaGasenjeGumbom = false
            ∧ ((blinkStep (activateStep s now).1 now).1).zahtjevZaGasenjeIR = false := by
          revert hz
          cases ((blinkStep (activateStep s now).1 now).1).zahtjevZaGasenjeGumbom <;>
            cases ((blinkStep (activateStep s now).1 now).1).zahtjevZaGasenjeIR <;> simp
        have hbp : ((blinkStep (activateStep s now).1 now).1).sustavPokrenut = true := by
          unfold blinkStep
          split_ifs <;> simpa using hpok3
        have hba : ((blinkStep (activateStep s now).1 now).1).alarmAktivan = true := by
          unfold blinkStep
          split_ifs <;> simpa using ha
        exact ⟨hzz.1, hzz.2, fun hcon => absurd hcon (by simp [hba]), fun _ => hbp⟩
    · have ha' : ((activateStep s now).1).alarmAktivan = false := by
        revert ha; cases ((activateStep s now).1).alarmAktivan <;> simp
      rw [if_neg (show ¬(((activateStep s now).1).alarmAktivan = true) by simp [ha'])] at hres
      by_cases hpir : pir = true
      · rw [if_neg (show ¬(((!((activateStep s now).1).alarmAktivan) && !pir) = true) by
          simp [hpir])] at hres
        simp only [Option.some.injEq, Prod.mk.injEq] at hres
        obtain ⟨h1, _⟩ := hres
        subst h1
        obtain ⟨m1, m2, m3, m4⟩ := hmid3
        refine ⟨?_, ?_, fun _ => m3 ha', fun hcon => absurd hcon (by simp [ha'])⟩
        · cases hG : ((activateStep s now).1).zahtjevZaGasenjeGumbom
          · rfl
          · exact absurd (m1 hG) (by simp [ha'])
        · cases hG : ((activateStep s now).1).zahtjevZaGasenjeIR
          · rfl
          · exact absurd (m2 hG) (by simp [ha'])
      · have hpir' : pir = false := by revert hpir; cases pir <;> simp
        rw [if_pos (show ((!((activateStep s now).1).alarmAktivan) && !pir) = true by
          simp [ha', hpir'])] at hres
        rw [Option.map_eq_some'] at hres
        obtain ⟨⟨s2, tr2⟩, h2, h3⟩ := hres
        obtain ⟨z, hzshape⟩ := enterSleep_shape h2
        simp only [Prod.mk.injEq] at h3
        obtain ⟨h31, _⟩ := h3
        subst h31
        subst hzshape
        obtain ⟨m1, m2, m3, m4⟩ := hmid3
        refine ⟨?_, ?_, fun _ => m3 ha', fun hcon => absurd hcon (by simp [ha'])⟩
        · show ((activateStep s now).1).zahtjevZaGasenjeGumbom = false
          cases hG : ((activateStep s now).1).zahtjevZaGasenjeGumbom
          · rfl
          · exact absurd (m1 hG) (by simp [ha'])
        · show ((activateStep s now).1).zahtjevZaGasenjeIR = false
          cases hG : ((activateStep s now).1).zahtjevZaGasenjeIR
          · rfl
          · exact absurd (m2 hG) (by simp [ha'])

theorem loop_inv {s s' : St} {i : Inputs} {tr : List Action}
    (h : Inv s) (hres : loop s i = some (s', tr)) : Inv s' := by
  unfold loop at hres
  by_cases hz : (s.zahtjevZaGasenjeSustava && s.sustavPokrenut) = true
  · rw [if_pos hz] at hres
    simp only [Option.some.injEq, Prod.mk.injEq] at hres
    obtain ⟨h1, _⟩ := hres
    subst h1
    obtain ⟨i1, i2, _, _⟩ := h
    exact ⟨i1, i2, fun _ => ⟨rfl, rfl⟩, fun hcon => Bool.noConfusion hcon⟩
  · rw [if_neg hz] at hres
    rw [Option.map_eq_some'] at hres
    obtain ⟨⟨s2, tr2⟩, h2, h3⟩ := hres
    simp only [Prod.mk.injEq] at h3
    obtain ⟨h31, _⟩ := h3
    subst h31
    exact loopAfterIr_inv (irStep_mid i.ir (buttonStep_mid i.buttonLevel i.now (inv_mid h))) h2

theorem reachable_inv {s : St} (h : Reachable s) : Inv s := by
  induction h with
  | boot => exact inv_boot
  | step _ hstep ih => exact loop_inv ih hstep

theorem irStep_bf (s : St) (b : Bool) (n : Nat) (ir : Option Nat) :
    irStep { s with prosloStanjeGumba := b, zadnjeVrijemeGumba := n } ir
      = ({ (irStep s ir).1 with prosloStanjeGumba := b, zadnjeVrijemeGumba := n }, (irStep s ir).2) := by
  cases ir with
  | none => rfl
  | some kod =>
    by_cases h1 : kod = IR_KOD_PALJENJE
    · by_cases h2 : s.sustavPokrenut = true <;> simp [irStep, h1, h2]
    · by_cases h3 : kod = IR_KOD_GASENJE
      · simp only [irStep]
        rw [if_neg h1, if_pos h3, if_neg h1, if_pos h3]
      · by_cases h4 : (decide (kod = IR_KOD_GASENJE_ALARMA) && s.alarmAktivan) = true
        · simp only [irStep]
          rw [if_neg h1, if_neg h3, if_pos h4, if_neg h1, if_neg h3, if_pos h4]
        · simp only [irStep]
          rw [if_neg h1, if_neg h3, if_neg h4, if_neg h1, if_neg h3, if_neg h4]

theorem buttonStep_pokrenut (s : St) (l : Bool) (n : Nat) :
    (buttonStep s l n).1.sustavPokrenut = s.sustavPokrenut := by
  unfold buttonStep
  split_ifs <;> rfl

theorem buttonStep_alarm (s : St) (l : Bool) (n : Nat) :
    (buttonStep s l n).1.alarmAktivan = s.alarmAktivan := by
  unfold buttonStep
  split_ifs <;> rfl

theorem buttonStep_edge (s : St) (l : Bool) (n : Nat)
    (hprev : s.prosloStanjeGumba = true) (hl : l = false) :
    (buttonStep s l n).1.zadnjeVrijemeGumba = n := by
  unfold buttonStep
  rw [if_pos (by simp [hprev, hl])]
  split_ifs <;> rfl

theorem buttonStep_noalarm (s : St) (l : Bool) (n : Nat) (ha : s.alarmAktivan = false) :
    buttonStep s l n
      = ({ s with prosloStanjeGumba := l, zadnjeVrijemeGumba := if (s.prosloStanjeGumba && !l) = true then n else s.zadnjeVrijemeGumba }, []) := by
  unfold buttonStep
  by_cases hc : (s.prosloStanjeGumba && !l) = true
  · rw [if_pos hc, if_neg (by simp [ha]), if_pos hc]
  · rw [if_neg hc, if_neg hc]

theorem loopAfterIr_some_of_pir (s : St) (now : Nat) (ticks : List SleepTick) :
    ∃ out, loopAfterIr s now true ticks = some out := by
  unfold loopAfterIr
  by_cases h1 : (!s.sustavPokrenut) = true
  · rw [if_pos h1]
    exact ⟨_, rfl⟩
  · rw [if_neg h1]
    by_cases h2 : (activateStep s now).1.alarmAktivan = true
    · rw [if_pos h2]
      by_cases h3 : ((blinkStep (activateStep s now).1 now).1.zahtjevZaGasenjeGumbom
          || (blinkStep (activateStep s now).1 now).1.zahtjevZaGasenjeIR) = true
      · rw [if_pos h3]
        exact ⟨_, rfl⟩
      · rw [if_neg h3]
        exact ⟨_, rfl⟩
    · rw [if_neg h2,
        if_neg (show ¬((!(activateStep s now).1.alarmAktivan && !true) = true) by simp)]
      exact ⟨_, rfl⟩

theorem reachable_of_state {s s1 : St} {i : Inputs} (h : Reachable s)
    (heq : (loop s i).map (fun p => p.1) = some s1) : Reachable s1 := by
  rcases hres : loop s i with _ | ⟨s2, tr⟩
  · rw [hres] at heq
    cases heq
  · rw [hres] at heq
    simp only [Option.map_some', Option.some.injEq] at heq
    exact heq ▸ Reachable.step h hres

/-- Input used by the counterexample to C1: a RemoteStart (PLAY) press
arriving in the Stopped state, PIR level HIGH. -/
def c1Input : Inputs :=
  { now := 0, buttonLevel := true, ir := some IR_KOD_PALJENJE,
    pirLevel := true, sleepTicks := [] }

/-- Claim C1 (counterexample): processing RemoteStart from the Stopped
state emits `led true` actuation (the 3 s startup animation) although
the state is not AlarmActive before or after the iteration, so actuation
is not driven only in AlarmActive. -/
theorem C1_counterexample :
    bootState.alarmAktivan = false
    ∧ (loop bootState c1Input).map (fun p => p.1.alarmAktivan) = some false
    ∧ (loop bootState c1Input).map (fun p => decide (Action.led true ∈ p.2)) = some true := by
  decide

/-- Claim C1 (amended): at every reachable loop-iteration boundary, if
the state is not AlarmActive then the LED and buzzer outputs are LOW.
(The original "actuation iff AlarmActive" is refuted by the startup
animation of the RemoteStart transition, which drives the outputs while
the state is not AlarmActive.) -/
theorem C1_outputs_low_when_not_alarm (s : St) (h : Reachable s)
    (ha : s.alarmAktivan = false) : s.ledOut = false ∧ s.buzzerOut = false :=
  (reachable_inv h).2.2.1 ha

/-- Witness for C1: the boot state is reachable, is not AlarmActive, and
has both outputs LOW. -/
theorem C1_outputs_low_when_not_alarm_witness :
    bootState.ledOut = false ∧ bootState.buzzerOut = false :=
  C1_outputs_low_when_not_alarm bootState Reachable.boot (by decide)

/-- Claim C3: a pending RemoteStop request is handled at the top of the
loop iteration, before the button, IR, alarm and sleep processing: while
AlarmActive with the stop request pending, one iteration yields Stopped
with both outputs LOW, and the result does not depend on any of the
iteration inputs (pending button or silence activity included). -/
theorem C3_remote_stop_priority (s : St) (hp : s.sustavPokrenut = true)
    (ha : s.alarmAktivan = true) (hz : s.zahtjevZaGasenjeSustava = true)
    (i i2 : Inputs) :
    loop s i = some (shutdownSt s, shutdownActions)
    ∧ loop s i = loop s i2
    ∧ (shutdownSt s).ledOut = false ∧ (shutdownSt s).buzzerOut = false
    ∧ (shutdownSt s).sustavPokrenut = false ∧ (shutdownSt s).alarmAktivan = false := by
  have he : ∀ j : Inputs, loop s j = some (shutdownSt s, shutdownActions) := by
    intro j
    unfold loop
    rw [if_pos (by simp [hz, hp])]
  exact ⟨he i, by rw [he i, he i2], rfl, rfl, rfl, rfl⟩

/-- State used by the C3 witness: alarm active, actuator mid-blink, a
button-silence request and the stop request both pending. -/
def c3State : St :=
  { bootState with sustavPokrenut := true, alarmAktivan := true, stanje := true, ledOut := true, buzzerOut := true, backlight := true, zahtjevZaGasenjeGumbom := true, zahtjevZaGasenjeSustava := true }

/-- Witness for C3 at a mid-blink alarm state with two different input
assignments. -/
theorem C3_remote_stop_priority_witness :
    loop c3State c1Input = some (shutdownSt c3State, shutdownActions)
    ∧ loop c3State c1Input
        = loop c3State { now := 7, buttonLevel := false, ir := none, pirLevel := false,
                         sleepTicks := [] }
    ∧ (shutdownSt c3State).ledOut = false ∧ (shutdownSt c3State).buzzerOut = false
    ∧ (shutdownSt c3State).sustavPokrenut = false
    ∧ (shutdownSt c3State).alarmAktivan = false :=
  C3_remote_stop_priority c3State (by decide) (by decide) (by decide) c1Input
    { now := 7, buttonLevel := false, ir := none, pirLevel := false, sleepTicks := [] }

theorem loopAfterIr_idle (s : St) (now : Nat) (ticks : List SleepTick)
    (hp : s.sustavPokrenut = true) (ha : s.alarmAktivan = false)
    (hw : s.wakeUpFlag = false) :
    loopAfterIr s now true ticks = some (s, []) := by
  unfold loopAfterIr
  rw [if_neg (by simp [hp])]
  have hact : activateStep s now = (s, []) := by
    unfold activateStep
    rw [if_neg (by simp [hw])]
  simp only [hact]
  rw [if_neg (by simp [ha]), if_neg (by simp)]

/-- Input used by the counterexample to C2: a RemoteStop (POWER) press
arriving while the system is Stopped. -/
def c2Input : Inputs :=
  { now := 5, buttonLevel := true, ir := some IR_KOD_GASENJE,
    pirLevel := true, sleepTicks := [] }

/-- Claim C2 (counterexample): a RemoteStop received in the Stopped
state is ignored by the shutdown branch (which requires the system to
be started): the stop-request flag remains pending after the iteration
and the backlight stays on, so the flags are not all cleared. -/
theorem C2_counterexample :
    bootState.sustavPokrenut = false
    ∧ (loop bootState c2Input).map (fun p => p.1.zahtjevZaGasenjeSustava) = some true
    ∧ (loop bootState c2Input).map (fun p => p.1.backlight) = some true := by
  decide

/-- Claim C2 (amended): when the system is started (Armed or
AlarmActive) and a RemoteStop request is pending, the next loop
iteration shuts the system down: state Stopped, both outputs LOW,
backlight off, and every event flag (wake, stop request, button-silence,
IR-silence) clear; while Stopped the request is ignored and stays
pending. -/
theorem C2_shutdown_clears (s : St) (h : Reachable s) (hp : s.sustavPokrenut = true)
    (hz : s.zahtjevZaGasenjeSustava = true) (i : Inputs) :
    loop s i = some (shutdownSt s, shutdownActions)
    ∧ (shutdownSt s).sustavPokrenut = false
    ∧ (shutdownSt s).alarmAktivan = false
    ∧ (shutdownSt s).wakeUpFlag = false
    ∧ (shutdownSt s).zahtjevZaGasenjeSustava = false
    ∧ (shutdownSt s).zahtjevZaGasenjeGumbom = false
    ∧ (shutdownSt s).zahtjevZaGasenjeIR = false
    ∧ (shutdownSt s).ledOut = false
    ∧ (shutdownSt s).buzzerOut = false
    ∧ (shutdownSt s).backlight = false := by
  refine ⟨?_, rfl, rfl, rfl, rfl, (reachable_inv h).1, (reachable_inv h).2.1, rfl, rfl, rfl⟩
  unfold loop
  rw [if_pos (by simp [hz, hp])]

/-- State after RemoteStart from boot (Armed, backlight off). -/
def c2Mid : St := { bootState with sustavPokrenut := true, backlight := false }

/-- Armed state with a pending RemoteStop request. -/
def c2State : St := { c2Mid with zahtjevZaGasenjeSustava := true }

/-- Witness for C2 at a reachable Armed state with the stop request
pending (boot, then RemoteStart, then RemoteStop received). -/
theorem C2_shutdown_clears_witness :
    loop c2State c2Input = some (shutdownSt c2State, shutdownActions)
    ∧ (shutdownSt c2State).sustavPokrenut = false
    ∧ (shutdownSt c2State).alarmAktivan = false
    ∧ (shutdownSt c2State).wakeUpFlag = false
    ∧ (shutdownSt c2State).zahtjevZaGasenjeSustava = false
    ∧ (shutdownSt c2State).zahtjevZaGasenjeGumbom = false
    ∧ (shutdownSt c2State).zahtjevZaGasenjeIR = false
    ∧ (shutdownSt c2State).ledOut = false
    ∧ (shutdownSt c2State).buzzerOut = false
    ∧ (shutdownSt c2State).backlight = false :=
  C2_shutdown_clears c2State
    (reachable_of_state
      (reachable_of_state Reachable.boot
        (by decide : (loop bootState c1Input).map (fun p => p.1) = some c2Mid))
      (by decide : (loop c2Mid c2Input).map (fun p => p.1) = some c2State))
    (by decide) (by decide) c2Input

/-- Claim C10: the RemoteStart transition clears a pending motion wake
flag before arming: the PLAY branch itself leaves the wake flag false
while starting the system, and a full iteration that starts the system
ends not in alarm with the wake flag false, so motion detected while
Stopped never raises an alarm after arming. -/
theorem C10_remote_start_clears_wake (s : St) (i : Inputs)
    (hp : s.sustavPokrenut = false) (ha : s.alarmAktivan = false)
    (hplay : i.ir = some IR_KOD_PALJENJE) (hpir : i.pirLevel = true) :
    (irStep s (some IR_KOD_PALJENJE)).1.wakeUpFlag = false
    ∧ (irStep s (some IR_KOD_PALJENJE)).1.sustavPokrenut = true
    ∧ ∃ s' tr, loop s i = some (s', tr) ∧ s'.wakeUpFlag = false
        ∧ s'.alarmAktivan = false ∧ s'.sustavPokrenut = true := by
  have hbp : (buttonStep s i.buttonLevel i.now).1.sustavPokrenut = false := by
    rw [buttonStep_pokrenut]
    exact hp
  have hba : (buttonStep s i.buttonLevel i.now).1.alarmAktivan = false := by
    rw [buttonStep_alarm]
    exact ha
  have hL : irStep (buttonStep s i.buttonLevel i.now).1 (some IR_KOD_PALJENJE)
      = ({ (buttonStep s i.buttonLevel i.now).1 with sustavPokrenut := true, wakeUpFlag := false, ledOut := false, buzzerOut := false, backlight := false },
         Action.serialIRCode IR_KOD_PALJENJE :: (irPlayActions ++ [Action.irResume])) := by
    simp [irStep, hbp]
  have hres : loop s i
      = some (({ (buttonStep s i.buttonLevel i.now).1 with sustavPokrenut := true, wakeUpFlag := false, ledOut := false, buzzerOut := false, backlight := false } : St),
              (buttonStep s i.buttonLevel i.now).2
                ++ (Action.serialIRCode IR_KOD_PALJENJE :: (irPlayActions ++ [Action.irResume]))
                ++ []) := by
    unfold loop
    rw [if_neg (by simp [hp]), hplay]
    simp only [hL]
    rw [hpir]
    rw [loopAfterIr_idle ({ (buttonStep s i.buttonLevel i.now).1 with sustavPokrenut := true, wakeUpFlag := false, ledOut := false, buzzerOut := false, backlight := false }) i.now i.sleepTicks rfl hba rfl]
    rfl
  exact ⟨by simp [irStep, hp], by simp [irStep, hp], _, _, hres, rfl, hba, rfl⟩

/-- Witness for C10: boot state plus a RemoteStart with the wake flag
already pending. -/
theorem C10_remote_start_clears_wake_witness :
    (irStep { bootState with wakeUpFlag := true } (some IR_KOD_PALJENJE)).1.wakeUpFlag = false
    ∧ (irStep { bootState with wakeUpFlag := true } (some IR_KOD_PALJENJE)).1.sustavPokrenut = true
    ∧ ∃ s' tr, loop { bootState with wakeUpFlag := true } c1Input = some (s', tr)
        ∧ s'.wakeUpFlag = false ∧ s'.alarmAktivan = false ∧ s'.sustavPokrenut = true :=
  C10_remote_start_clears_wake { bootState with wakeUpFlag := true } c1Input
    (by decide) (by decide) (by decide) (by decide)

/-- Claim C8: a RemoteStart received while the system is already
started is a no-op: the post-iteration state (all flags, outputs and
timers) is the same as if no IR signal had been decoded at all. -/
theorem C8_remote_start_noop (s : St) (i : Inputs) (hp : s.sustavPokrenut = true) :
    (loop s { i with ir := some IR_KOD_PALJENJE }).map (fun p => p.1)
      = (loop s { i with ir := none }).map (fun p => p.1) := by
  unfold loop
  by_cases hz : (s.zahtjevZaGasenjeSustava && s.sustavPokrenut) = true
  · rw [if_pos hz, if_pos hz]
  · rw [if_neg hz, if_neg hz]
    have hbp : (buttonStep s i.buttonLevel i.now).1.sustavPokrenut = true := by
      rw [buttonStep_pokrenut]
      exact hp
    have hL : irStep (buttonStep s i.buttonLevel i.now).1 (some IR_KOD_PALJENJE)
        = ((buttonStep s i.buttonLevel i.now).1,
           [Action.serialIRCode IR_KOD_PALJENJE, Action.irResume]) := by
      simp [irStep, hbp]
    simp only [hL]
    rw [Option.map_map, Option.map_map]
    rfl

/-- Witness for C8: Armed state, RemoteStart versus no IR input. -/
theorem C8_remote_start_noop_witness :
    (loop c2Mid { c2Input with ir := some IR_KOD_PALJENJE }).map (fun p => p.1)
      = (loop c2Mid { c2Input with ir := none }).map (fun p => p.1) :=
  C8_remote_start_noop c2Mid c2Input (by decide)

theorem loopAfterIr_stopped (s : St) (now : Nat) (pir : Bool) (ticks : List SleepTick)
    (hp : s.sustavPokrenut = false) :
    loopAfterIr s now pir ticks = some (s, []) := by
  unfold loopAfterIr
  rw [if_pos (by simp [hp])]

/-- Acceptance condition of a button press in `loop`: the previous poll
read HIGH and the current poll reads LOW.  This is the entire condition;
no timestamp is consulted. -/
def buttonEdgeAccepted (s : St) (i : Inputs) : Bool :=
  s.prosloStanjeGumba && !i.buttonLevel

/-- Press observed at t = 1000 ms. -/
def c5In1 : Inputs :=
  { now := 1000, buttonLevel := false, ir := none, pirLevel := true, sleepTicks := [] }

/-- Release observed at t = 1050 ms. -/
def c5In2 : Inputs :=
  { now := 1050, buttonLevel := true, ir := none, pirLevel := true, sleepTicks := [] }

/-- Second press observed at t = 1100 ms. -/
def c5In3 : Inputs :=
  { now := 1100, buttonLevel := false, ir := none, pirLevel := true, sleepTicks := [] }

/-- State after the first press. -/
def c5S1 : St := { bootState with prosloStanjeGumba := false, zadnjeVrijemeGumba := 1000 }

/-- State after the release. -/
def c5S2 : St := { c5S1 with prosloStanjeGumba := true }

/-- Claim C5 (counterexample): two physical presses 100 ms apart (press
at 1000 ms, release at 1050 ms, press at 1100 ms) are both accepted by
the controller - the edge condition holds for both and both record
their press time - although 100 ms < 250 ms, so presses inside the
claimed 250 ms window do not collapse to one accepted event. -/
theorem C5_counterexample :
    buttonEdgeAccepted bootState c5In1 = true
    ∧ (loop bootState c5In1).map (fun p => p.1) = some c5S1
    ∧ (loop c5S1 c5In2).map (fun p => p.1) = some c5S2
    ∧ buttonEdgeAccepted c5S2 c5In3 = true
    ∧ (loop c5S2 c5In3).map (fun p => p.1.zadnjeVrijemeGumba) = some 1100
    ∧ c5In3.now - c5In1.now < 250 := by
  decide

/-- Claim C5 (amended): the controller's button path has no debounce
window: every observed High→Low transition is accepted and records the
press time, even when less than 250 ms have elapsed since the last
accepted press.  (A 250 ms window, with a strict `> 250` comparison,
exists only in the wake ISR of the separate power-management sketch,
modelled by `wakeUpDemo`.) -/
theorem C5_no_debounce_window (s : St) (i : Inputs)
    (hz : (s.zahtjevZaGasenjeSustava && s.sustavPokrenut) = false)
    (hprev : s.prosloStanjeGumba = true) (hl : i.buttonLevel = false)
    (hpir : i.pirLevel = true)
    (hwin : usub32 i.now s.zadnjeVrijemeGumba < 250) :
    ∃ s' tr, loop s i = some (s', tr) ∧ s'.zadnjeVrijemeGumba = i.now := by
  by_cases hA : s.alarmAktivan = true
  · have hbs : buttonStep s i.buttonLevel i.now
        = ({ ({ s with zahtjevZaGasenjeGumbom := true }) with prosloStanjeGumba := i.buttonLevel, zadnjeVrijemeGumba := i.now },
           [Action.serial ">> LOOP: Gumb pritisnut (aktivni alarm)."]) := by
      unfold buttonStep
      rw [if_pos (by simp [hprev, hl]), if_pos hA]
    obtain ⟨⟨s2, tr2⟩, hout⟩ :=
      loopAfterIr_some_of_pir (irStep { s with zahtjevZaGasenjeGumbom := true } i.ir).1 i.now i.sleepTicks
    have hres : loop s i
        = some (({ s2 with prosloStanjeGumba := i.buttonLevel, zadnjeVrijemeGumba := i.now }),
                [Action.serial ">> LOOP: Gumb pritisnut (aktivni alarm)."]
                  ++ (irStep { s with zahtjevZaGasenjeGumbom := true } i.ir).2 ++ tr2) := by
      unfold loop
      rw [if_neg (by simp [hz]), hpir]
      simp only [hbs]
      simp only [irStep_bf { s with zahtjevZaGasenjeGumbom := true } i.buttonLevel i.now i.ir]
      simp only [loopAfterIr_bf (irStep { s with zahtjevZaGasenjeGumbom := true } i.ir).1
        i.buttonLevel i.now i.now true i.sleepTicks]
      rw [hout]
      rfl
    exact ⟨_, _, hres, rfl⟩
  · have hA' : s.alarmAktivan = false := by revert hA; cases s.alarmAktivan <;> simp
    have hbs : buttonStep s i.buttonLevel i.now
        = ({ s with prosloStanjeGumba := i.buttonLevel, zadnjeVrijemeGumba := i.now }, []) := by
      unfold buttonStep
      rw [if_pos (by simp [hprev, hl]), if_neg (by simp [hA'])]
    obtain ⟨⟨s2, tr2⟩, hout⟩ := loopAfterIr_some_of_pir (irStep s i.ir).1 i.now i.sleepTicks
    have hres : loop s i
        = some (({ s2 with prosloStanjeGumba := i.buttonLevel, zadnjeVrijemeGumba := i.now }),
                [] ++ (irStep s i.ir).2 ++ tr2) := by
      unfold loop
      rw [if_neg (by simp [hz]), hpir]
      simp only [hbs]
      simp only [irStep_bf s i.buttonLevel i.now i.ir]
      simp only [loopAfterIr_bf (irStep s i.ir).1 i.buttonLevel i.now i.now true i.sleepTicks]
      rw [hout]
      rfl
    exact ⟨_, _, hres, rfl⟩

/-- Witness for C5 (amended): a press 100 ms after the previously
recorded press is still accepted. -/
theorem C5_no_debounce_window_witness :
    ∃ s' tr, loop { bootState with zadnjeVrijemeGumba := 900 }
        { now := 1000, buttonLevel := false, ir := none, pirLevel := true, sleepTicks := [] }
        = some (s', tr) ∧ s'.zadnjeVrijemeGumba = 1000 :=
  C5_no_debounce_window { bootState with zadnjeVrijemeGumba := 900 }
    { now := 1000, buttonLevel := false, ir := none, pirLevel := true, sleepTicks := [] }
    (by decide) (by decide) (by decide) (by decide) (by decide)

/-- Claim C9: while the system is Stopped, the iteration returns right
after the IR processing: motion wake flag and button presses change
neither the FSM state nor the outputs, no request flag is raised, the
wake flag is left untouched (not consumed), and the emitted actions are
only IR logging and `IrReceiver.resume()`. -/
theorem C9_stopped_inert (s : St) (i : Inputs)
    (hp : s.sustavPokrenut = false) (ha : s.alarmAktivan = false)
    (hg : s.zahtjevZaGasenjeGumbom = false)
    (hirp : i.ir ≠ some IR_KOD_PALJENJE) :
    ∃ s' tr, loop s i = some (s', tr)
      ∧ s'.sustavPokrenut = false ∧ s'.alarmAktivan = false
      ∧ s'.wakeUpFlag = s.wakeUpFlag
      ∧ s'.ledOut = s.ledOut ∧ s'.buzzerOut = s.buzzerOut ∧ s'.stanje = s.stanje
      ∧ s'.prethodno = s.prethodno
      ∧ s'.zahtjevZaGasenjeGumbom = false
      ∧ ∀ a ∈ tr, a = Action.irResume ∨ ∃ k, a = Action.serialIRCode k := by
  have hbs : buttonStep s i.buttonLevel i.now
      = ({ s with prosloStanjeGumba := i.buttonLevel, zadnjeVrijemeGumba := if (s.prosloStanjeGumba && !i.buttonLevel) = true then i.now else s.zadnjeVrijemeGumba }, []) :=
    buttonStep_noalarm s i.buttonLevel i.now ha
  rcases hir : i.ir with _ | kod
  · have hres : loop s i
        = some (({ s with prosloStanjeGumba := i.buttonLevel, zadnjeVrijemeGumba := if (s.prosloStanjeGumba && !i.buttonLevel) = true then i.now else s.zadnjeVrijemeGumba }), [] ++ [] ++ []) := by
      unfold loop
      rw [if_neg (by simp [hp]), hir]
      simp only [hbs]
      rw [loopAfterIr_stopped _ i.now i.pirLevel i.sleepTicks (by simpa using hp)]
      rfl
    exact ⟨_, _, hres, hp, ha, rfl, rfl, rfl, rfl, rfl, hg, by simp⟩
  · have hk1 : ¬kod = IR_KOD_PALJENJE := fun hcon => hirp (by rw [hir, hcon])
    by_cases hk3 : kod = IR_KOD_GASENJE
    · have hI : irStep ({ s with prosloStanjeGumba := i.buttonLevel, zadnjeVrijemeGumba := if (s.prosloStanjeGumba && !i.buttonLevel) = true then i.now else s.zadnjeVrijemeGumba } : St) (some kod)
          = ({ ({ s with prosloStanjeGumba := i.buttonLevel, zadnjeVrijemeGumba := if (s.prosloStanjeGumba && !i.buttonLevel) = true then i.now else s.zadnjeVrijemeGumba } : St) with zahtjevZaGasenjeSustava := true },
             [Action.serialIRCode kod, Action.irResume]) := by
        simp only [irStep]
        rw [if_neg hk1, if_pos hk3]
      have hres : loop s i
          = some (({ ({ s with prosloStanjeGumba := i.buttonLevel, zadnjeVrijemeGumba := if (s.prosloStanjeGumba && !i.buttonLevel) = true then i.now else s.zadnjeVrijemeGumba } : St) with zahtjevZaGasenjeSustava := true }),
                  [] ++ [Action.serialIRCode kod, Action.irResume] ++ []) := by
        unfold loop
        rw [if_neg (by simp [hp]), hir]
        simp only [hbs, hI]
        rw [loopAfterIr_stopped _ i.now i.pirLevel i.sleepTicks (by simpa using hp)]
        rfl
      refine ⟨_, _, hres, hp, ha, rfl, rfl, rfl, rfl, rfl, hg, ?_⟩
      intro a hmem
      simp only [List.nil_append, List.append_nil, List.mem_cons, List.not_mem_nil,
        or_false] at hmem
      rcases hmem with h | h
      · exact Or.inr ⟨kod, h⟩
      · exact Or.inl h
    · have hk4 : ¬((decide (kod = IR_KOD_GASENJE_ALARMA)
          && ({ s with prosloStanjeGumba := i.buttonLevel, zadnjeVrijemeGumba := if (s.prosloStanjeGumba && !i.buttonLevel) = true then i.now else s.zadnjeVrijemeGumba } : St).alarmAktivan) = true) := by
        simp [ha]
      have hI : irStep ({ s with prosloStanjeGumba := i.buttonLevel, zadnjeVrijemeGumba := if (s.prosloStanjeGumba && !i.buttonLevel) = true then i.now else s.zadnjeVrijemeGumba } : St) (some kod)
          = (({ s with prosloStanjeGumba := i.buttonLevel, zadnjeVrijemeGumba := if (s.prosloStanjeGumba && !i.buttonLevel) = true then i.now else s.zadnjeVrijemeGumba } : St),
             [Action.serialIRCode kod, Action.irResume]) := by
        simp only [irStep]
        rw [if_neg hk1, if_neg hk3, if_neg hk4]
      have hres : loop s i
          = some (({ s with prosloStanjeGumba := i.buttonLevel, zadnjeVrijemeGumba := if (s.prosloStanjeGumba && !i.buttonLevel) = true then i.now else s.zadnjeVrijemeGumba } : St),
                  [] ++ [Action.serialIRCode kod, Action.irResume] ++ []) := by
        unfold loop
        rw [if_neg (by simp [hp]), hir]
        simp only [hbs, hI]
        rw [loopAfterIr_stopped _ i.now i.pirLevel i.sleepTicks (by simpa using hp)]
        rfl
      refine ⟨_, _, hres, hp, ha, rfl, rfl, rfl, rfl, rfl, hg, ?_⟩
      intro a hmem
      simp only [List.nil_append, List.append_nil, List.mem_cons, List.not_mem_nil,
        or_false] at hmem
      rcases hmem with h | h
      · exact Or.inr ⟨kod, h⟩
      · exact Or.inl h

/-- Witness for C9: Stopped state with the wake flag pending, a button
press and a RemoteStop IR code in the same iteration. -/
theorem C9_stopped_inert_witness :
    ∃ s' tr, loop { bootState with wakeUpFlag := true }
        { now := 40, buttonLevel := false, ir := some IR_KOD_GASENJE, pirLevel := true, sleepTicks := [] }
        = some (s', tr)
      ∧ s'.sustavPokrenut = false ∧ s'.alarmAktivan = false
      ∧ s'.wakeUpFlag = ({ bootState with wakeUpFlag := true } : St).wakeUpFlag
      ∧ s'.ledOut = ({ bootState with wakeUpFlag := true } : St).ledOut
      ∧ s'.buzzerOut = ({ bootState with wakeUpFlag := true } : St).buzzerOut
      ∧ s'.stanje = ({ bootState with wakeUpFlag := true } : St).stanje
      ∧ s'.prethodno = ({ bootState with wakeUpFlag := true } : St).prethodno
      ∧ s'.zahtjevZaGasenjeGumbom = false
      ∧ ∀ a ∈ tr, a = Action.irResume ∨ ∃ k, a = Action.serialIRCode k :=
  C9_stopped_inert { bootState with wakeUpFlag := true }
    { now := 40, buttonLevel := false, ir := some IR_KOD_GASENJE, pirLevel := true, sleepTicks := [] }
    (by decide) (by decide) (by decide) (by decide)

/-- Claim C6: the simulated sleep wait polls with 10 ms granularity
(every delay it emits is exactly 10 ms), a pending shutdown request
makes the very first condition check exit the wait (no starvation), the
wait exits whenever some tick carries a HIGH motion level, and an exit
happens only because a tick's motion level was HIGH or the shutdown
request is pending at exit. -/
theorem C6_sleep_wait (ticks : List SleepTick) :
    ∀ (s s1 : St) (acts : List Action) (done : Bool),
    enterSleepLoop s ticks = (s1, acts, done) →
    ((∀ n, Action.delayMs n ∈ acts → n = 10)
     ∧ (s.zahtjevZaGasenjeSustava = true → ticks ≠ [] → done = true ∧ acts = [])
     ∧ ((∃ t ∈ ticks, t.pir = true) → done = true)
     ∧ (done = true → (∃ t ∈ ticks, t.pir = true) ∨ s1.zahtjevZaGasenjeSustava = true)) := by
  induction ticks with
  | nil =>
    intro s s1 acts done h
    simp only [enterSleepLoop] at h
    injection h with h1 h23
    injection h23 with h2 h3
    subst h1
    subst h2
    subst h3
    refine ⟨by intro n hn; simp at hn, fun _ hne => absurd rfl hne, by simp, ?_⟩
    intro hcon
    exact Bool.noConfusion hcon
  | cons t rest ih =>
    intro s s1 acts done h
    by_cases hc : (!t.pir && !s.zahtjevZaGasenjeSustava) = true
    · rcases hir : t.ir with _ | kod
      · have hstep : enterSleepLoop s (t :: rest)
            = ((enterSleepLoop s rest).1,
               Action.delayMs 10 :: ([] ++ (enterSleepLoop s rest).2.1),
               (enterSleepLoop s rest).2.2) := by
          simp [enterSleepLoop, hc, hir]
        rw [hstep] at h
        rcases he : enterSleepLoop s rest with ⟨r1, racts, rdone⟩
        rw [he] at h
        injection h with h1 h23
        injection h23 with h2 h3
        subst h1
        subst h2
        subst h3
        obtain ⟨d, _, pe, er⟩ := ih s r1 racts rdone he
        refine ⟨?_, ?_, ?_, ?_⟩
        · intro n hn
          simp only [List.nil_append, List.mem_cons] at hn
          rcases hn with hh | hh
          · injection hh
          · exact d n hh
        · intro hza _
          rw [hza] at hc
          simp at hc
        · rintro ⟨t2, ht2, hp2⟩
          rcases List.mem_cons.mp ht2 with hh | hh
          · subst hh
            rw [hp2] at hc
            simp at hc
          · exact pe ⟨t2, hh, hp2⟩
        · intro hdone
          rcases er hdone with hh | hh
          · obtain ⟨t2, ht2, hp2⟩ := hh
            exact Or.inl ⟨t2, List.mem_cons_of_mem _ ht2, hp2⟩
          · exact Or.inr hh
      · by_cases hk : kod = IR_KOD_GASENJE
        · have hstep : enterSleepLoop s (t :: rest)
              = ((enterSleepLoop { s with zahtjevZaGasenjeSustava := true } rest).1,
                 Action.delayMs 10 ::
                   ([Action.serialIRCode kod,
                     Action.serial ">> Sustav iskljucen (IR POWER) tijekom cekanja PIR!",
                     Action.irResume]
                    ++ (enterSleepLoop { s with zahtjevZaGasenjeSustava := true } rest).2.1),
                 (enterSleepLoop { s with zahtjevZaGasenjeSustava := true } rest).2.2) := by
            simp [enterSleepLoop, hc, hir, hk]
          rw [hstep] at h
          rcases he : enterSleepLoop { s with zahtjevZaGasenjeSustava := true } rest
            with ⟨r1, racts, rdone⟩
          rw [he] at h
          injection h with h1 h23
          injection h23 with h2 h3
          subst h1
          subst h2
          subst h3
          obtain ⟨d, _, pe, er⟩ := ih { s with zahtjevZaGasenjeSustava := true } r1 racts rdone he
          refine ⟨?_, ?_, ?_, ?_⟩
          · intro n hn
            simp only [List.mem_cons, List.mem_append, List.not_mem_nil, or_false] at hn
            rcases hn with hh | hh | hh
            · injection hh
            · rcases hh with hh1 | hh1 | hh1 <;> simp at hh1
            · exact d n hh
          · intro hza _
            rw [hza] at hc
            simp at hc
          · rintro ⟨t2, ht2, hp2⟩
            rcases List.mem_cons.mp ht2 with hh | hh
            · subst hh
              rw [hp2] at hc
              simp at hc
            · exact pe ⟨t2, hh, hp2⟩
          · intro hdone
            rcases er hdone with hh | hh
            · obtain ⟨t2, ht2, hp2⟩ := hh
              exact Or.inl ⟨t2, List.mem_cons_of_mem _ ht2, hp2⟩
            · exact Or.inr hh
        · have hstep : enterSleepLoop s (t :: rest)
              = ((enterSleepLoop s rest).1,
                 Action.delayMs 10 ::
                   ([Action.serialIRCode kod, Action.irResume] ++ (enterSleepLoop s rest).2.1),
                 (enterSleepLoop s rest).2.2) := by
            simp [enterSleepLoop, hc, hir, hk]
          rw [hstep] at h
          rcases he : enterSleepLoop s rest with ⟨r1, racts, rdone⟩
          rw [he] at h
          injection h with h1 h23
          injection h23 with h2 h3
          subst h1
          subst h2
          subst h3
          obtain ⟨d, _, pe, er⟩ := ih s r1 racts rdone he
          refine ⟨?_, ?_, ?_, ?_⟩
          · intro n hn
            simp only [List.mem_cons, List.mem_append, List.not_mem_nil, or_false] at hn
            rcases hn with hh | hh | hh
            · injection hh
            · rcases hh with hh1 | hh1 <;> simp at hh1
            · exact d n hh
          · intro hza _
            rw [hza] at hc
            simp at hc
          · rintro ⟨t2, ht2, hp2⟩
            rcases List.mem_cons.mp ht2 with hh | hh
            · subst hh
              rw [hp2] at hc
              simp at hc
            · exact pe ⟨t2, hh, hp2⟩
          · intro hdone
            rcases er hdone with hh | hh
            · obtain ⟨t2, ht2, hp2⟩ := hh
              exact Or.inl ⟨t2, List.mem_cons_of_mem _ ht2, hp2⟩
            · exact Or.inr hh
    · have hstep : enterSleepLoop s (t :: rest) = (s, [], true) := by
        simp only [enterSleepLoop]
        rw [if_neg hc]
      rw [hstep] at h
      injection h with h1 h23
      injection h23 with h2 h3
      subst h1
      subst h2
      subst h3
      refine ⟨by intro n hn; simp at hn, fun _ _ => ⟨rfl, rfl⟩, fun _ => rfl, ?_⟩
      intro _
      have hor : t.pir = true ∨ s.zahtjevZaGasenjeSustava = true := by
        revert hc
        cases t.pir <;> cases s.zahtjevZaGasenjeSustava <;> simp
      rcases hor with hh | hh
      · exact Or.inl ⟨t, List.mem_cons_self t rest, hh⟩
      · exact Or.inr hh

/-- Witness for C6: a two-tick wait (motion LOW then HIGH) from the
boot state exits with a single 10 ms delay emitted. -/
theorem C6_sleep_wait_witness :
    ((∀ n, Action.delayMs n ∈ [Action.delayMs 10] → n = 10)
     ∧ (bootState.zahtjevZaGasenjeSustava = true
          → ([⟨false, none⟩, ⟨true, none⟩] : List SleepTick) ≠ []
          → true = true ∧ [Action.delayMs 10] = ([] : List Action))
     ∧ ((∃ t ∈ ([⟨false, none⟩, ⟨true, none⟩] : List SleepTick), t.pir = true) → true = true)
     ∧ (true = true
          → (∃ t ∈ ([⟨false, none⟩, ⟨true, none⟩] : List SleepTick), t.pir = true)
            ∨ bootState.zahtjevZaGasenjeSustava = true)) :=
  C6_sleep_wait [⟨false, none⟩, ⟨true, none⟩] bootState bootState [Action.delayMs 10] true
    (by decide)

theorem blinkStep_pres (s : St) (now : Nat) :
    (blinkStep s now).1.sustavPokrenut = s.sustavPokrenut
    ∧ (blinkStep s now).1.alarmAktivan = s.alarmAktivan
    ∧ (blinkStep s now).1.zahtjevZaGasenjeGumbom = s.zahtjevZaGasenjeGumbom
    ∧ (blinkStep s now).1.zahtjevZaGasenjeIR = s.zahtjevZaGasenjeIR := by
  unfold blinkStep
  split_ifs <;> exact ⟨rfl, rfl, rfl, rfl⟩

theorem loopAfterIr_deactivate (s3 : St) (now : Nat) (pir : Bool) (ticks : List SleepTick)
    (hp : s3.sustavPokrenut = true) (ha : s3.alarmAktivan = true)
    (hflag : (s3.zahtjevZaGasenjeGumbom || s3.zahtjevZaGasenjeIR) = true) :
    ∃ s' p, loopAfterIr s3 now pir ticks = some (s', p ++ (ugasiAlarmActions ++ resetStanjeActions))
      ∧ s' = (resetStanje { (ugasiAlarm (blinkStep s3 now).1).1 with zahtjevZaGasenjeGumbom := false, zahtjevZaGasenjeIR := false }).1 := by
  have hact : activateStep s3 now = (s3, []) := by
    unfold activateStep
    rw [if_neg (by simp [ha])]
  have hres : loopAfterIr s3 now pir ticks
      = some ((resetStanje { (ugasiAlarm (blinkStep s3 now).1).1 with zahtjevZaGasenjeGumbom := false, zahtjevZaGasenjeIR := false }).1,
              ([] ++ (blinkStep s3 now).2) ++ (ugasiAlarmActions ++ resetStanjeActions)) := by
    unfold loopAfterIr
    rw [if_neg (by simp [hp])]
    simp only [hact]
    rw [if_pos (by simpa using ha)]
    rw [if_pos (by rw [(blinkStep_pres s3 now).2.2.1, (blinkStep_pres s3 now).2.2.2]; exact hflag)]
    simp [ugasiAlarm, resetStanje]
  exact ⟨_, [] ++ (blinkStep s3 now).2, hres, rfl⟩

/-- Claim C4: a deactivation event (button falling edge or the IR
key-1 code) received while AlarmActive runs the Reset sub-sequence in
order — outputs LOW, "Alarm ugasen" for 1.5 s, "Stanje mirovanja" for
2 s, backlight off, then the blocking poll until the PIR level returns
LOW — and on completion the state is Armed with all alarm-related flags
false.  The emitted trace ends with exactly
`ugasiAlarmActions ++ resetStanjeActions`. -/
theorem C4_reset_sequence (s : St) (i : Inputs)
    (hp : s.sustavPokrenut = true) (ha : s.alarmAktivan = true)
    (hz : s.zahtjevZaGasenjeSustava = false)
    (hir : i.ir = none ∨ i.ir = some IR_KOD_GASENJE_ALARMA)
    (hev : (s.prosloStanjeGumba = true ∧ i.buttonLevel = false)
            ∨ i.ir = some IR_KOD_GASENJE_ALARMA) :
    ∃ s' p, loop s i = some (s', p ++ (ugasiAlarmActions ++ resetStanjeActions))
      ∧ s'.alarmAktivan = false ∧ s'.sustavPokrenut = true
      ∧ s'.zahtjevZaGasenjeGumbom = false ∧ s'.zahtjevZaGasenjeIR = false
      ∧ s'.ledOut = false ∧ s'.buzzerOut = false ∧ s'.backlight = false := by
  by_cases hedge : (s.prosloStanjeGumba && !i.buttonLevel) = true
  · have hbs : buttonStep s i.buttonLevel i.now
        = (({ s with zadnjeVrijemeGumba := i.now, zahtjevZaGasenjeGumbom := true, prosloStanjeGumba := i.buttonLevel } : St),
           [Action.serial ">> LOOP: Gumb pritisnut (aktivni alarm)."]) := by
      unfold buttonStep
      rw [if_pos hedge, if_pos ha]
    rcases hir with hirn | hirs
    · obtain ⟨s', p, hL1, hL2⟩ := loopAfterIr_deactivate
        ({ s with zadnjeVrijemeGumba := i.now, zahtjevZaGasenjeGumbom := true, prosloStanjeGumba := i.buttonLevel } : St)
        i.now i.pirLevel i.sleepTicks hp ha (by simp)
      have hres : loop s i
          = some (s', ([Action.serial ">> LOOP: Gumb pritisnut (aktivni alarm)."] ++ [] ++ p)
              ++ (ugasiAlarmActions ++ resetStanjeActions)) := by
        unfold loop
        rw [if_neg (by simp [hz]), hirn]
        simp only [hbs, irStep]
        rw [hL1]
        simp [List.append_assoc]
      subst hL2
      exact ⟨_, _, hres, rfl, Eq.trans (blinkStep_pres _ i.now).1 hp, rfl, rfl, rfl, rfl, rfl⟩
    · have hI : irStep ({ s with zadnjeVrijemeGumba := i.now, zahtjevZaGasenjeGumbom := true, prosloStanjeGumba := i.buttonLevel } : St) (some IR_KOD_GASENJE_ALARMA)
          = (({ ({ s with zadnjeVrijemeGumba := i.now, zahtjevZaGasenjeGumbom := true, prosloStanjeGumba := i.buttonLevel } : St) with zahtjevZaGasenjeIR := true } : St),
             [Action.serialIRCode IR_KOD_GASENJE_ALARMA,
              Action.serial ">> LOOP: IR kod za gasenje ALARMA (tipka 1).", Action.irResume]) := by
        simp only [irStep]
        rw [if_neg (by decide), if_neg (by decide), if_pos (by simp [ha])]
      obtain ⟨s', p, hL1, hL2⟩ := loopAfterIr_deactivate
        ({ ({ s with zadnjeVrijemeGumba := i.now, zahtjevZaGasenjeGumbom := true, prosloStanjeGumba := i.buttonLevel } : St) with zahtjevZaGasenjeIR := true } : St)
        i.now i.pirLevel i.sleepTicks hp ha (by simp)
      have hres : loop s i
          = some (s', ([Action.serial ">> LOOP: Gumb pritisnut (aktivni alarm)."]
              ++ [Action.serialIRCode IR_KOD_GASENJE_ALARMA,
                  Action.serial ">> LOOP: IR kod za gasenje ALARMA (tipka 1).", Action.irResume] ++ p)
              ++ (ugasiAlarmActions ++ resetStanjeActions)) := by
        unfold loop
        rw [if_neg (by simp [hz]), hirs]
        simp only [hbs, hI]
        rw [hL1]
        simp [List.append_assoc]
      subst hL2
      exact ⟨_, _, hres, rfl, Eq.trans (blinkStep_pres _ i.now).1 hp, rfl, rfl, rfl, rfl, rfl⟩
  · have hirs : i.ir = some IR_KOD_GASENJE_ALARMA := by
      rcases hev with ⟨h1, h2⟩ | h
      · exact absurd (by simp [h1, h2]) hedge
      · exact h
    have hbs : buttonStep s i.buttonLevel i.now
        = (({ s with prosloStanjeGumba := i.buttonLevel } : St), []) := by
      unfold buttonStep
      rw [if_neg hedge]
    have hI : irStep ({ s with prosloStanjeGumba := i.buttonLevel } : St) (some IR_KOD_GASENJE_ALARMA)
        = (({ ({ s with prosloStanjeGumba := i.buttonLevel } : St) with zahtjevZaGasenjeIR := true } : St),
           [Action.serialIRCode IR_KOD_GASENJE_ALARMA,
            Action.serial ">> LOOP: IR kod za gasenje ALARMA (tipka 1).", Action.irResume]) := by
      simp only [irStep]
      rw [if_neg (by decide), if_neg (by decide), if_pos (by simp [ha])]
    obtain ⟨s', p, hL1, hL2⟩ := loopAfterIr_deactivate
      ({ ({ s with prosloStanjeGumba := i.buttonLevel } : St) with zahtjevZaGasenjeIR := true } : St)
      i.now i.pirLevel i.sleepTicks hp ha (by simp)
    have hres : loop s i
        = some (s', ([] ++ [Action.serialIRCode IR_KOD_GASENJE_ALARMA,
                Action.serial ">> LOOP: IR kod za gasenje ALARMA (tipka 1).", Action.irResume] ++ p)
            ++ (ugasiAlarmActions ++ resetStanjeActions)) := by
      unfold loop
      rw [if_neg (by simp [hz]), hirs]
      simp only [hbs, hI]
      rw [hL1]
      simp [List.append_assoc]
    subst hL2
    exact ⟨_, _, hres, rfl, Eq.trans (blinkStep_pres _ i.now).1 hp, rfl, rfl, rfl, rfl, rfl⟩

/-- Witness for C4: active alarm, button pressed (no IR traffic). -/
theorem C4_reset_sequence_witness :
    ∃ s' p, loop { bootState with sustavPokrenut := true, alarmAktivan := true, ledOut := true, buzzerOut := true, backlight := true, stanje := true }
        { now := 600, buttonLevel := false, ir := none, pirLevel := true, sleepTicks := [] }
        = some (s', p ++ (ugasiAlarmActions ++ resetStanjeActions))
      ∧ s'.alarmAktivan = false ∧ s'.sustavPokrenut = true
      ∧ s'.zahtjevZaGasenjeGumbom = false ∧ s'.zahtjevZaGasenjeIR = false
      ∧ s'.ledOut = false ∧ s'.buzzerOut = false ∧ s'.backlight = false :=
  C4_reset_sequence
    { bootState with sustavPokrenut := true, alarmAktivan := true, ledOut := true, buzzerOut := true, backlight := true, stanje := true }
    { now := 600, buttonLevel := false, ir := none, pirLevel := true, sleepTicks := [] }
    (by decide) (by decide) (by decide) (Or.inl rfl) (Or.inl ⟨by decide, by decide⟩)

/-- Claim C7: a deactivation request is accepted only while AlarmActive:
when the alarm is not active, a button press changes nothing except the
button bookkeeping (previous level, last press time) — the iteration
result is identical to the no-press run up to those two fields — and a
remote-silence IR code leaves the entire post-iteration state identical
to the run with no IR input. -/
theorem C7_deactivation_requires_alarm (s : St) (i : Inputs)
    (ha : s.alarmAktivan = false) :
    (loop s i).map (fun p => (coreOf p.1, p.2))
      = (loop s { i with buttonLevel := true }).map (fun p => (coreOf p.1, p.2))
    ∧ (i.ir = some IR_KOD_GASENJE_ALARMA →
        (loop s i).map (fun p => p.1)
          = (loop s { i with ir := none }).map (fun p => p.1)) := by
  constructor
  · unfold loop
    by_cases hz : (s.zahtjevZaGasenjeSustava && s.sustavPokrenut) = true
    · rw [if_pos hz, if_pos hz]
    · rw [if_neg hz, if_neg hz]
      rw [buttonStep_noalarm s i.buttonLevel i.now ha, buttonStep_noalarm s true i.now ha]
      simp only [irStep_bf s i.buttonLevel
        (if (s.prosloStanjeGumba && !i.buttonLevel) = true then i.now else s.zadnjeVrijemeGumba) i.ir]
      simp only [irStep_bf s true
        (if (s.prosloStanjeGumba && !true) = true then i.now else s.zadnjeVrijemeGumba) i.ir]
      simp only [loopAfterIr_bf (irStep s i.ir).1 i.buttonLevel
        (if (s.prosloStanjeGumba && !i.buttonLevel) = true then i.now else s.zadnjeVrijemeGumba)
        i.now i.pirLevel i.sleepTicks]
      simp only [loopAfterIr_bf (irStep s i.ir).1 true
        (if (s.prosloStanjeGumba && !true) = true then i.now else s.zadnjeVrijemeGumba)
        i.now i.pirLevel i.sleepTicks]
      simp only [Option.map_map]
      rfl
  · intro hirs
    unfold loop
    by_cases hz : (s.zahtjevZaGasenjeSustava && s.sustavPokrenut) = true
    · rw [if_pos hz, if_pos hz]
    · rw [if_neg hz, if_neg hz]
      have hba : (buttonStep s i.buttonLevel i.now).1.alarmAktivan = false := by
        rw [buttonStep_alarm]
        exact ha
      have hI : irStep (buttonStep s i.buttonLevel i.now).1 (some IR_KOD_GASENJE_ALARMA)
          = ((buttonStep s i.buttonLevel i.now).1,
             [Action.serialIRCode IR_KOD_GASENJE_ALARMA, Action.irResume]) := by
        simp only [irStep]
        rw [if_neg (by decide), if_neg (by decide), if_neg (by simp [hba])]
      rw [hirs]
      simp only [hI]
      simp only [Option.map_map]
      rfl

/-- Witness for C7: Armed state, button press plus a remote-silence code
in the same iteration. -/
theorem C7_deactivation_requires_alarm_witness :
    (loop c2Mid { now := 70, buttonLevel := false, ir := some IR_KOD_GASENJE_ALARMA, pirLevel := true, sleepTicks := [] }).map (fun p => (coreOf p.1, p.2))
      = (loop c2Mid { ({ now := 70, buttonLevel := false, ir := some IR_KOD_GASENJE_ALARMA, pirLevel := true, sleepTicks := [] } : Inputs) with buttonLevel := true }).map (fun p => (coreOf p.1, p.2))
    ∧ (({ now := 70, buttonLevel := false, ir := some IR_KOD_GASENJE_ALARMA, pirLevel := true, sleepTicks := [] } : Inputs).ir = some IR_KOD_GASENJE_ALARMA →
        (loop c2Mid { now := 70, buttonLevel := false, ir := some IR_KOD_GASENJE_ALARMA, pirLevel := true, sleepTicks := [] }).map (fun p => p.1)
          = (loop c2Mid { ({ now := 70, buttonLevel := false, ir := some IR_KOD_GASENJE_ALARMA, pirLevel := true, sleepTicks := [] } : Inputs) with ir := none }).map (fun p => p.1)) :=
  C7_deactivation_requires_alarm c2Mid
    { now := 70, buttonLevel := false, ir := some IR_KOD_GASENJE_ALARMA, pirLevel := true, sleepTicks := [] }
    (by decide)

end AlarmCtl
